import Mathlib

/-!
Shallow embedding of the AskGenie chat application (src/views/chat.py).

The program is a single Streamlit script.  Its state that survives across
script runs is:

  * st.session_state.messages      — the conversation store rendered in the
                                     UI and replayed into every prompt; a
                                     Python list of {"role", "content"} dicts;
  * st.session_state.chat_history  — a langchain ChatMessageHistory object,
                                     fed to RunnableWithMessageHistory.

A user submission does, in order (chat.py lines 139-155):
  1. append {"role": "user", "content": user_input} to messages;
  2. invoke with_message_history with input
       {"language": language, "messages": <copy of the whole messages list>};
  3. on success append {"role": "assistant", "content": response.content}.

The chain is
  ChatPromptTemplate [system-instruction(language), MessagesPlaceholder]
  | ChatGroq,
wrapped in RunnableWithMessageHistory with input_messages_key = "messages"
and NO history_messages_key.  Per the langchain_core documented semantics of
that wrapper (an external library, embedded here from its documentation):
  * before the call, the stored history is PREPENDED to the input messages
    and the result fills the placeholder;
  * after a successful call, the input messages beyond the stored-history
    length, followed by the output message, are appended to the history;
  * on an error the exception propagates and the history is not updated.

The external model endpoint is abstracted as an oracle
`svc : Prompt → Except ε String`: it receives the assembled prompt and
either returns the generated text or fails with an uninterpreted error.
-/

/-- One conversation turn, as stored in st.session_state.messages:
a role string ("user" or "assistant") and the text content. -/
structure Msg where
  role : String
  content : String
deriving DecidableEq, Repr

/-- The dict appended on line 141: {"role": "user", "content": user_input}. -/
def userMsg (c : String) : Msg := { role := "user", content := c }

/-- The dict appended on line 153: {"role": "assistant", "content": response.content}. -/
def assistantMsg (c : String) : Msg := { role := "assistant", content := c }

/-- The system line of generic_template (chat.py line 118), with the {language}
placeholder substituted by the selected language. -/
def systemInstruction (language : String) : String :=
  "You are a helpful assistant developed by Mitesh. Answer all questions to the best of your ability and give response in given "
    ++ language ++ " language."

/-- The structured prompt the external model service receives: the formatted
system instruction followed by the role-tagged message list that filled the
MessagesPlaceholder. -/
structure Prompt where
  system_text : String
  history : List Msg
deriving DecidableEq, Repr

/-- The list comprehension on line 148:
[{"role": msg["role"], "content": msg["content"]} for msg in st.session_state.messages]
— rebuilds each stored dict field by field. -/
def renderMessages (messages : List Msg) : List Msg :=
  messages.map (fun m => { role := m.role, content := m.content })

/-- Modelled from the langchain_core documentation of
RunnableWithMessageHistory._enter_history (the wrapper is an external
library, not part of this repository): with no history_messages_key, the
messages that reach the placeholder are the stored history followed by the
input messages. -/
def enterHistory (hist inputMsgs : List Msg) : List Msg :=
  hist ++ inputMsgs

/-- Modelled from the langchain_core documentation of
RunnableWithMessageHistory._exit_history: after a successful call the stored
history receives the input messages beyond the old history length, then the
output messages. -/
def exitHistory (hist inputMsgs outputMsgs : List Msg) : List Msg :=
  hist ++ inputMsgs.drop hist.length ++ outputMsgs

/-- The persistent session state: the conversation store
st.session_state.messages and the wrapper-held st.session_state.chat_history
(its message list). -/
structure AppState where
  messages : List Msg
  chat_history : List Msg
deriving DecidableEq, Repr

/-- The store at the moment of the model call: the user turn has already been
appended (line 141 runs before line 146). -/
def storeAtCall (s : AppState) (user_input : String) : List Msg :=
  s.messages ++ [userMsg user_input]

/-- The prompt assembled for a submission: the language-parameterized system
instruction, then chat_history prepended (by the wrapper) to the rendered
full message list (which already ends with the new user turn). -/
def promptOf (language : String) (s : AppState) (user_input : String) : Prompt :=
  { system_text := systemInstruction language
    history := enterHistory s.chat_history (renderMessages (storeAtCall s user_input)) }

/-- Result of one script run: whether the model call succeeded (the error is
returned uninterpreted), the session state afterwards, and the trace of
prompts actually sent to the external service during the run. -/
structure StepResult (ε : Type) where
  outcome : Except ε Unit
  state : AppState
  calls : List Prompt

/-- The submission block (chat.py lines 139-155): append the user turn, send
the assembled prompt to the service, and on success append the assistant turn
to the store and update the wrapper history; on failure the exception aborts
the script run, leaving the already-appended user turn in the store. -/
def processSubmission {ε : Type} (svc : Prompt → Except ε String) (language : String)
    (s : AppState) (user_input : String) : StepResult ε :=
  let msgs1 := storeAtCall s user_input
  let p := promptOf language s user_input
  match svc p with
  | Except.ok resp =>
      { outcome := Except.ok ()
        state := { messages := msgs1 ++ [assistantMsg resp]
                   chat_history := exitHistory s.chat_history (renderMessages msgs1) [assistantMsg resp] }
        calls := [p] }
  | Except.error e =>
      { outcome := Except.error e
        state := { messages := msgs1, chat_history := s.chat_history }
        calls := [p] }

/-- One whole script run, gated by `if user_input:` (line 139): a falsy
(empty) user_input takes the else branch, which only displays the greeting —
no store mutation, no model call. -/
def scriptRun {ε : Type} (svc : Prompt → Except ε String) (language : String)
    (s : AppState) (user_input : String) : StepResult ε :=
  if user_input = "" then
    { outcome := Except.ok (), state := s, calls := [] }
  else
    processSubmission svc language s user_input

/-- A sequence of script runs with the given user inputs, threading the
session state (which Streamlit keeps across runs, even when a run aborts
with an exception). -/
def runSession {ε : Type} (svc : Prompt → Except ε String) (language : String) :
    List String → AppState → AppState
  | [], s => s
  | input :: rest, s => runSession svc language rest (scriptRun svc language s input).state

/-- The model_dict mapping of display names to API identifiers (chat.py lines 11-15). -/
def model_dict : String → Option String
  | "LLaMA 3.1-8B" => some "llama-3.1-8b-instant"
  | "Gemma2 9B" => some "gemma2-9b-it"
  | "Mixtral" => some "mixtral-8x7b-32768"
  | _ => none

/-- The keyword arguments the ChatGroq client is constructed with
(chat.py lines 91-97).  Temperature is carried exactly (modelled on ℚ);
nothing is clamped, rescaled or defaulted. -/
structure GroqConfig where
  model : String
  api_key : Option String
  temperature : ℚ
  max_tokens : ℕ
  streaming : Bool
deriving DecidableEq, Repr

/-- The ChatGroq construction: every argument is passed through unmodified,
and streaming is set to true. -/
def mkChatGroq (selected_model : String) (api_key : Option String)
    (temperature : ℚ) (max_tokens : ℕ) : GroqConfig :=
  { model := selected_model, api_key := api_key, temperature := temperature
    max_tokens := max_tokens, streaming := true }

/-- The credential as the program obtains it: os.getenv("GROQ_API_KEY"),
passed to the client with no validation in the repository. -/
def apiKeyFromEnv (env : String → Option String) : Option String :=
  env "GROQ_API_KEY"

/-- Lower bound of the Temperature slider (chat.py line 65). -/
def temperatureMin : ℚ := 0

/-- Upper bound of the Temperature slider (chat.py line 66). -/
def temperatureMax : ℚ := 1

/-- Lower bound of the Max Tokens slider (chat.py line 73). -/
def maxTokensMin : ℕ := 1

/-- Upper bound of the Max Tokens slider (chat.py line 74). -/
def maxTokensMax : ℕ := 2048

/-- In an all-success run the store alternates: altFrom r l says l starts
with role r and then strictly alternates between r and the other role. -/
def otherRole (r : String) : String := if r = "user" then "assistant" else "user"

/-- Decides strict role alternation of a message list, starting at role r. -/
def altFrom : String → List Msg → Bool
  | _, [] => true
  | r, m :: rest => (m.role == r) && altFrom (otherRole r) rest

/-- The role expected right after the list l when alternation started at r. -/
def endRole (r : String) : List Msg → String
  | [] => r
  | _ :: rest => endRole (otherRole r) rest

/-- Concrete service oracles used by witnesses and counterexamples. -/
def svcA : Prompt → Except Unit String := fun _ => Except.ok "A"

/-- A service that always succeeds with a fixed reply. -/
def svcOk : Prompt → Except Unit String := fun _ => Except.ok "Hi there!"

/-- A service that always fails, modelling a rejected (invalid) credential. -/
def svcAuthFail : Prompt → Except String String :=
  fun _ => Except.error "Error code: 401 - invalid_api_key"

/-- A service that always fails with a generic error. -/
def svcErr : Prompt → Except String String := fun _ => Except.error "boom"

-- Helper lemmas about one submission step.

theorem processSubmission_ok {ε : Type} (svc : Prompt → Except ε String) (language : String)
    (s : AppState) (input : String) (r : String)
    (h : svc (promptOf language s input) = Except.ok r) :
    processSubmission svc language s input =
      { outcome := Except.ok ()
        state := { messages := storeAtCall s input ++ [assistantMsg r]
                   chat_history := exitHistory s.chat_history
                     (renderMessages (storeAtCall s input)) [assistantMsg r] }
        calls := [promptOf language s input] } := by
  simp [processSubmission, h]

theorem processSubmission_error {ε : Type} (svc : Prompt → Except ε String) (language : String)
    (s : AppState) (input : String) (e : ε)
    (h : svc (promptOf language s input) = Except.error e) :
    processSubmission svc language s input =
      { outcome := Except.error e
        state := { messages := storeAtCall s input, chat_history := s.chat_history }
        calls := [promptOf language s input] } := by
  simp [processSubmission, h]

theorem processSubmission_calls {ε : Type} (svc : Prompt → Except ε String) (language : String)
    (s : AppState) (input : String) :
    (processSubmission svc language s input).calls = [promptOf language s input] := by
  rcases h : svc (promptOf language s input) with e | r
  · rw [processSubmission_error svc language s input e h]
  · rw [processSubmission_ok svc language s input r h]

theorem scriptRun_of_ne {ε : Type} (svc : Prompt → Except ε String) (language : String)
    (s : AppState) (input : String) (h : input ≠ "") :
    scriptRun svc language s input = processSubmission svc language s input := by
  rw [scriptRun, if_neg h]

theorem scriptRun_messages_shape {ε : Type} (svc : Prompt → Except ε String) (language : String)
    (s : AppState) (input : String) :
    (scriptRun svc language s input).state.messages = s.messages ∨
    (scriptRun svc language s input).state.messages = s.messages ++ [userMsg input] ∨
    ∃ r, (scriptRun svc language s input).state.messages
      = s.messages ++ [userMsg input, assistantMsg r] := by
  by_cases h : input = ""
  · left; rw [scriptRun, if_pos h]
  · rw [scriptRun_of_ne svc language s input h]
    rcases he : svc (promptOf language s input) with e | r
    · right; left
      rw [processSubmission_error svc language s input e he, storeAtCall]
    · right; right
      refine ⟨r, ?_⟩
      rw [processSubmission_ok svc language s input r he, storeAtCall]
      simp


-- Alternation bookkeeping lemmas.

theorem altFrom_append (r : String) (l1 l2 : List Msg) :
    altFrom r (l1 ++ l2) = (altFrom r l1 && altFrom (endRole r l1) l2) := by
  induction l1 generalizing r with
  | nil => simp [altFrom, endRole]
  | cons m l1 ih => simp [altFrom, endRole, ih, Bool.and_assoc]

theorem endRole_append (r : String) (l1 l2 : List Msg) :
    endRole r (l1 ++ l2) = endRole (endRole r l1) l2 := by
  induction l1 generalizing r with
  | nil => simp [endRole]
  | cons m l1 ih => simp [endRole, ih]

theorem altFrom_pair (u a : String) :
    altFrom "user" [userMsg u, assistantMsg a] = true := by
  simp [altFrom, otherRole, userMsg, assistantMsg]

theorem endRole_pair (u a : String) :
    endRole "user" [userMsg u, assistantMsg a] = "user" := by
  simp [endRole, otherRole]

-- Session-level helper lemmas.

theorem runSession_length_aux {ε : Type} (svc : Prompt → Except ε String) (language : String)
    (hok : ∀ p, ∃ r, svc p = Except.ok r) :
    ∀ (inputs : List String), (∀ i ∈ inputs, i ≠ "") → ∀ s : AppState,
      (runSession svc language inputs s).messages.length
        = s.messages.length + 2 * inputs.length := by
  intro inputs
  induction inputs with
  | nil => intro _ s; rw [runSession]; simp
  | cons input rest ih =>
      intro hne s
      obtain ⟨r, hr⟩ := hok (promptOf language s input)
      have h1 : input ≠ "" := hne input (List.mem_cons_self _ _)
      have h2 : ∀ i ∈ rest, i ≠ "" := fun i hi => hne i (List.mem_cons_of_mem _ hi)
      rw [runSession, scriptRun_of_ne svc language s input h1,
        processSubmission_ok svc language s input r hr, ih h2]
      simp [storeAtCall]
      ring

theorem runSession_alt_aux {ε : Type} (svc : Prompt → Except ε String) (language : String)
    (hok : ∀ p, ∃ r, svc p = Except.ok r) :
    ∀ (inputs : List String), (∀ i ∈ inputs, i ≠ "") → ∀ s : AppState,
      altFrom "user" s.messages = true → endRole "user" s.messages = "user" →
      altFrom "user" (runSession svc language inputs s).messages = true ∧
      endRole "user" (runSession svc language inputs s).messages = "user" := by
  intro inputs
  induction inputs with
  | nil => intro _ s ha he; rw [runSession]; exact ⟨ha, he⟩
  | cons input rest ih =>
      intro hne s ha he
      obtain ⟨r, hr⟩ := hok (promptOf language s input)
      have h1 : input ≠ "" := hne input (List.mem_cons_self _ _)
      have h2 : ∀ i ∈ rest, i ≠ "" := fun i hi => hne i (List.mem_cons_of_mem _ hi)
      rw [runSession, scriptRun_of_ne svc language s input h1,
        processSubmission_ok svc language s input r hr]
      refine ih h2 _ ?_ ?_
      · rw [storeAtCall, List.append_assoc, altFrom_append, ha, he]
        simp [altFrom_pair]
      · rw [storeAtCall, List.append_assoc, endRole_append, he]
        simp [endRole_pair]

theorem runSession_prefix_aux {ε : Type} (svc : Prompt → Except ε String) (language : String) :
    ∀ (inputs : List String) (s : AppState),
      s.messages <+: (runSession svc language inputs s).messages := by
  intro inputs
  induction inputs with
  | nil => intro s; rw [runSession]
  | cons input rest ih =>
      intro s
      rw [runSession]
      refine List.IsPrefix.trans ?_ (ih _)
      rcases scriptRun_messages_shape svc language s input with h | h | ⟨r, h⟩
      · rw [h]
      · rw [h]; exact ⟨[userMsg input], rfl⟩
      · rw [h]; exact ⟨[userMsg input, assistantMsg r], rfl⟩

-- Claim theorems.

/-- Claim C2: after N user submissions that each complete with a successful
external-model call, the conversation store holds exactly 2N turns (one user
turn and one assistant turn per submission). -/
theorem claim_C2_store_length (ε : Type) (svc : Prompt → Except ε String)
    (language : String) (inputs : List String)
    (hok : ∀ p, ∃ r, svc p = Except.ok r) (hne : ∀ i ∈ inputs, i ≠ "") :
    (runSession svc language inputs { messages := [], chat_history := [] }).messages.length
      = 2 * inputs.length := by
  rw [runSession_length_aux svc language hok inputs hne]
  simp

/-- Witness for C2: two successful submissions leave a store of length 4. -/
theorem claim_C2_store_length_witness :
    (∀ i ∈ ["a", "b"], i ≠ "") ∧
    (runSession svcOk "English" ["a", "b"]
      { messages := [], chat_history := [] }).messages.length = 2 * ["a", "b"].length :=
  ⟨by decide,
   claim_C2_store_length Unit svcOk "English" ["a", "b"]
     (fun p => ⟨"Hi there!", rfl⟩) (by decide)⟩

/-- Claim C3: when the external call fails, the error is returned to the
caller uninterpreted, exactly one call was made (no retry), the store is left
ending with the already-appended unanswered user turn, and the wrapper
history is unchanged. -/
theorem claim_C3_error_propagation (ε : Type) (svc : Prompt → Except ε String)
    (language : String) (s : AppState) (input : String) (e : ε)
    (h1 : input ≠ "") (h2 : svc (promptOf language s input) = Except.error e) :
    (scriptRun svc language s input).outcome = Except.error e ∧
    (scriptRun svc language s input).state.messages = s.messages ++ [userMsg input] ∧
    (scriptRun svc language s input).state.chat_history = s.chat_history ∧
    (scriptRun svc language s input).calls = [promptOf language s input] := by
  rw [scriptRun_of_ne svc language s input h1,
    processSubmission_error svc language s input e h2, storeAtCall]
  exact ⟨rfl, rfl, rfl, rfl⟩

/-- Witness for C3: a failing service on the submission "Hello" from an empty
session returns the error and leaves the dangling user turn. -/
theorem claim_C3_error_propagation_witness :
    (scriptRun svcErr "English" { messages := [], chat_history := [] } "Hello").outcome
      = Except.error "boom" ∧
    (scriptRun svcErr "English" { messages := [], chat_history := [] } "Hello").state.messages
      = [] ++ [userMsg "Hello"] ∧
    (scriptRun svcErr "English" { messages := [], chat_history := [] } "Hello").state.chat_history
      = [] ∧
    (scriptRun svcErr "English" { messages := [], chat_history := [] } "Hello").calls
      = [promptOf "English" { messages := [], chat_history := [] } "Hello"] :=
  claim_C3_error_propagation String svcErr "English"
    { messages := [], chat_history := [] } "Hello" "boom" (by decide) rfl

/-- Claim C4: with language Hindi, every prompt sent to the model service
during a script run carries a system-instruction text that contains the
string "Hindi". -/
theorem claim_C4_hindi_instruction (ε : Type) (svc : Prompt → Except ε String)
    (s : AppState) (input : String) (p : Prompt)
    (hp : p ∈ (scriptRun svc "Hindi" s input).calls) :
    ∃ pre post, p.system_text = pre ++ "Hindi" ++ post := by
  by_cases h : input = ""
  · rw [scriptRun, if_pos h] at hp
    exact absurd hp (List.not_mem_nil p)
  · rw [scriptRun_of_ne svc "Hindi" s input h, processSubmission_calls] at hp
    rw [List.mem_singleton.mp hp]
    exact ⟨"You are a helpful assistant developed by Mitesh. Answer all questions to the best of your ability and give response in given ",
      " language.", rfl⟩

/-- Witness for C4: the one prompt of a concrete Hindi submission contains
"Hindi" in its system text. -/
theorem claim_C4_hindi_instruction_witness :
    ∃ pre post,
      (promptOf "Hindi" { messages := [], chat_history := [] } "namaste").system_text
        = pre ++ "Hindi" ++ post :=
  claim_C4_hindi_instruction Unit svcOk { messages := [], chat_history := [] } "namaste"
    (promptOf "Hindi" { messages := [], chat_history := [] } "namaste")
    (List.mem_singleton.mpr rfl)

/-- Claim C5: the store is append-only. A single script run leaves the store
unchanged or extends it at the end (with the user turn, or the user turn then
the assistant turn), and over any whole session the earlier store is a prefix
of the later one — nothing is modified, reordered or deleted, and insertion
order is conversation order. -/
theorem claim_C5_append_only (ε : Type) (svc : Prompt → Except ε String)
    (language : String) (s : AppState) (input : String) (inputs : List String) :
    ((scriptRun svc language s input).state.messages = s.messages ∨
     (scriptRun svc language s input).state.messages = s.messages ++ [userMsg input] ∨
     ∃ r, (scriptRun svc language s input).state.messages
       = s.messages ++ [userMsg input, assistantMsg r]) ∧
    s.messages <+: (runSession svc language inputs s).messages :=
  ⟨scriptRun_messages_shape svc language s input, runSession_prefix_aux svc language inputs s⟩

/-- Claim C6: submitting "Hello" into an empty session first makes the store
[(user, "Hello")] — that is the store at the moment of the call — and when
the call returns text t the store becomes exactly
[(user, "Hello"), (assistant, t)]. -/
theorem claim_C6_hello_scenario (ε : Type) (svc : Prompt → Except ε String) (t : String)
    (h : svc (promptOf "English" { messages := [], chat_history := [] } "Hello")
      = Except.ok t) :
    storeAtCall { messages := [], chat_history := [] } "Hello" = [userMsg "Hello"] ∧
    (scriptRun svc "English" { messages := [], chat_history := [] } "Hello").state.messages
      = [userMsg "Hello", assistantMsg t] := by
  refine ⟨rfl, ?_⟩
  rw [scriptRun_of_ne svc "English" _ "Hello" (by decide),
    processSubmission_ok svc "English" _ "Hello" t h]
  rfl

/-- Witness for C6: the scenario with a concrete always-succeeding service. -/
theorem claim_C6_hello_scenario_witness :
    storeAtCall { messages := [], chat_history := [] } "Hello" = [userMsg "Hello"] ∧
    (scriptRun svcOk "English" { messages := [], chat_history := [] } "Hello").state.messages
      = [userMsg "Hello", assistantMsg "Hi there!"] :=
  claim_C6_hello_scenario Unit svcOk "Hi there!" rfl

/-- Claim C7 counterexample: with an invalid credential — modelled as a
service whose every call fails with the 401 invalid-api-key error — the
program does NOT fail fast before any submission is processed: the submission
"Hi" is processed, the user turn reaches the store, a model call is made, and
only that call returns the credential error. -/
theorem claim_C7_no_fail_fast :
    (scriptRun svcAuthFail "English" { messages := [], chat_history := [] } "Hi").state.messages
      = [userMsg "Hi"] ∧
    (scriptRun svcAuthFail "English" { messages := [], chat_history := [] } "Hi").calls.length
      = 1 ∧
    (scriptRun svcAuthFail "English" { messages := [], chat_history := [] } "Hi").outcome
      = Except.error "Error code: 401 - invalid_api_key" :=
  ⟨rfl, rfl, rfl⟩

/-- Claim C7, amended: the repository applies no validation to the
credential — the environment value is handed to the client constructor
unchanged — and when the credential is rejected by the service every
submission is still processed (user turn appended, one model call made)
before the credential error surfaces as the model-call error. -/
theorem claim_C7_credential_passthrough (env : String → Option String)
    (m : String) (t : ℚ) (n : ℕ) (ε : Type) (svc : Prompt → Except ε String)
    (language : String) (s : AppState) (input : String)
    (h1 : input ≠ "") (h2 : ∀ p, ∃ e, svc p = Except.error e) :
    (mkChatGroq m (apiKeyFromEnv env) t n).api_key = env "GROQ_API_KEY" ∧
    (scriptRun svc language s input).state.messages = s.messages ++ [userMsg input] ∧
    (scriptRun svc language s input).calls.length = 1 := by
  obtain ⟨e, he⟩ := h2 (promptOf language s input)
  rw [scriptRun_of_ne svc language s input h1,
    processSubmission_error svc language s input e he, storeAtCall]
  exact ⟨rfl, rfl, rfl⟩

/-- Witness for the amended C7, at a concrete environment, always-failing
service and the submission "Hi". -/
theorem claim_C7_credential_passthrough_witness :
    (mkChatGroq "llama-3.1-8b-instant"
      (apiKeyFromEnv (fun _ => some "gsk_bad_key")) (7/10) 256).api_key
      = some "gsk_bad_key" ∧
    (scriptRun svcAuthFail "English" { messages := [], chat_history := [] } "Hi").state.messages
      = [] ++ [userMsg "Hi"] ∧
    (scriptRun svcAuthFail "English" { messages := [], chat_history := [] } "Hi").calls.length
      = 1 :=
  claim_C7_credential_passthrough (fun _ => some "gsk_bad_key") "llama-3.1-8b-instant"
    (7/10) 256 String svcAuthFail "English" { messages := [], chat_history := [] } "Hi"
    (by decide) (fun p => ⟨"Error code: 401 - invalid_api_key", rfl⟩)

/-- Claim C8: every temperature within the slider range [0,1] (boundaries
included) and every max_tokens within the slider range [1,2048] are accepted
and passed through unmodified to the model-service client. -/
theorem claim_C8_parameters_passthrough (m : String) (k : Option String)
    (t : ℚ) (n : ℕ)
    (ht1 : temperatureMin ≤ t) (ht2 : t ≤ temperatureMax)
    (hn1 : maxTokensMin ≤ n) (hn2 : n ≤ maxTokensMax) :
    (mkChatGroq m k t n).temperature = t ∧ (mkChatGroq m k t n).max_tokens = n ∧
    (mkChatGroq m k t n).model = m ∧ (mkChatGroq m k t n).streaming = true :=
  ⟨rfl, rfl, rfl, rfl⟩

/-- Witness for C8 at both boundary corners: temperature 0 with max_tokens 1,
and temperature 1 with max_tokens 2048. -/
theorem claim_C8_parameters_passthrough_witness :
    ((mkChatGroq "llama-3.1-8b-instant" none 0 1).temperature = 0 ∧
     (mkChatGroq "llama-3.1-8b-instant" none 0 1).max_tokens = 1 ∧
     (mkChatGroq "llama-3.1-8b-instant" none 0 1).model = "llama-3.1-8b-instant" ∧
     (mkChatGroq "llama-3.1-8b-instant" none 0 1).streaming = true) ∧
    ((mkChatGroq "gemma2-9b-it" none 1 2048).temperature = 1 ∧
     (mkChatGroq "gemma2-9b-it" none 1 2048).max_tokens = 2048 ∧
     (mkChatGroq "gemma2-9b-it" none 1 2048).model = "gemma2-9b-it" ∧
     (mkChatGroq "gemma2-9b-it" none 1 2048).streaming = true) :=
  ⟨claim_C8_parameters_passthrough "llama-3.1-8b-instant" none 0 1
     (by norm_num [temperatureMin]) (by norm_num [temperatureMax])
     (by norm_num [maxTokensMin]) (by norm_num [maxTokensMax]),
   claim_C8_parameters_passthrough "gemma2-9b-it" none 1 2048
     (by norm_num [temperatureMin, temperatureMax]) (le_refl _)
     (by norm_num [maxTokensMin]) (le_refl _)⟩

/-- Claim C9 counterexample: an empty submission is NOT processed like any
other submission — the truthiness guard `if user_input:` skips it, so nothing
reaches the store and no model call is made, whereas processing it would have
appended (user, ""). -/
theorem claim_C9_empty_input_skipped :
    (scriptRun svcOk "English" { messages := [], chat_history := [] } "").state.messages
      = [] ∧
    (scriptRun svcOk "English" { messages := [], chat_history := [] } "").calls = [] ∧
    ([] : List Msg) ≠ [userMsg ""] :=
  ⟨rfl, rfl, by decide⟩

/-- Claim C9, amended: user input gets no content validation — every nonempty
submission (whitespace included) is processed identically, reaching the store
and the model call unchecked — while an empty input is treated by the
truthiness guard as no submission at all and is skipped. -/
theorem claim_C9_no_validation (ε : Type) (svc : Prompt → Except ε String)
    (language : String) (s : AppState) (input : String) :
    (input ≠ "" →
      (s.messages ++ [userMsg input]) <+: (scriptRun svc language s input).state.messages ∧
      (scriptRun svc language s input).calls = [promptOf language s input]) ∧
    (input = "" →
      (scriptRun svc language s input).state = s ∧
      (scriptRun svc language s input).calls = []) := by
  constructor
  · intro h
    rw [scriptRun_of_ne svc language s input h]
    refine ⟨?_, processSubmission_calls svc language s input⟩
    rcases he : svc (promptOf language s input) with e | r
    · rw [processSubmission_error svc language s input e he, storeAtCall]
    · rw [processSubmission_ok svc language s input r he, storeAtCall]
      exact ⟨[assistantMsg r], rfl⟩
  · intro h
    rw [scriptRun, if_pos h]
    exact ⟨rfl, rfl⟩

/-- Witness for the amended C9: the whitespace-only submission " " is
processed — it reaches the store and the model call — with no validation. -/
theorem claim_C9_no_validation_witness :
    (" " ≠ "") ∧
    (([] ++ [userMsg " "])
      <+: (scriptRun svcOk "English" { messages := [], chat_history := [] } " ").state.messages ∧
    (scriptRun svcOk "English" { messages := [], chat_history := [] } " ").calls
      = [promptOf "English" { messages := [], chat_history := [] } " "]) :=
  ⟨by decide,
   (claim_C9_no_validation Unit svcOk "English"
     { messages := [], chat_history := [] } " ").1 (by decide)⟩

/-- Claim C10: every turn ever placed in the store has role "user" or
"assistant" (one script run preserves this), and in a session in which every
external call succeeds the store, grown from empty, strictly alternates
user, assistant, user, assistant, ... starting with a user turn. -/
theorem claim_C10_roles_alternation :
    (∀ (ε : Type) (svc : Prompt → Except ε String) (language : String)
      (s : AppState) (input : String),
      (∀ m ∈ s.messages, m.role = "user" ∨ m.role = "assistant") →
      ∀ m ∈ (scriptRun svc language s input).state.messages,
        m.role = "user" ∨ m.role = "assistant") ∧
    (∀ (ε : Type) (svc : Prompt → Except ε String) (language : String)
      (inputs : List String),
      (∀ p, ∃ r, svc p = Except.ok r) → (∀ i ∈ inputs, i ≠ "") →
      altFrom "user" (runSession svc language inputs
        { messages := [], chat_history := [] }).messages = true) := by
  constructor
  · intro ε svc language s input hs m hm
    rcases scriptRun_messages_shape svc language s input with h | h | ⟨r, h⟩
    · exact hs m (h ▸ hm)
    · rw [h] at hm
      rcases List.mem_append.mp hm with hm1 | hm2
      · exact hs m hm1
      · left; rw [List.mem_singleton.mp hm2]; rfl
    · rw [h] at hm
      rcases List.mem_append.mp hm with hm1 | hm2
      · exact hs m hm1
      · rcases List.mem_cons.mp hm2 with h2 | h2
        · left; rw [h2]; rfl
        · right; rw [List.mem_singleton.mp h2]; rfl
  · intro ε svc language inputs hok hne
    exact (runSession_alt_aux svc language hok inputs hne
      { messages := [], chat_history := [] } rfl rfl).1

/-- Witness for C10: both parts at concrete inputs — one script run from a
one-turn store keeps the roles legal, and a two-submission all-success
session alternates starting with a user turn. -/
theorem claim_C10_roles_alternation_witness :
    (∀ m ∈ (scriptRun svcOk "English"
        { messages := [userMsg "q"], chat_history := [] } "w").state.messages,
      m.role = "user" ∨ m.role = "assistant") ∧
    altFrom "user" (runSession svcOk "English" ["a", "b"]
      { messages := [], chat_history := [] }).messages = true :=
  ⟨claim_C10_roles_alternation.1 Unit svcOk "English"
     { messages := [userMsg "q"], chat_history := [] } "w" (by decide),
   claim_C10_roles_alternation.2 Unit svcOk "English" ["a", "b"]
     (fun p => ⟨"Hi there!", rfl⟩) (by decide)⟩

/-- Claim C1 fails on the code from the second submission onward: because the
full manual message list is passed as the "messages" input while the chain is
also wrapped in RunnableWithMessageHistory (which prepends its stored
chat_history), the prompt of the second submission carries the first
submission's turns twice.  Concretely: submit "hi" (service answers "A"),
then submit "yo" — the store at the second call is
[(user,"hi"), (assistant,"A"), (user,"yo")], but the one prompt sent carries
history [(user,"hi"), (assistant,"A"), (user,"hi"), (assistant,"A"),
(user,"yo")], which duplicates the first two turns and differs from the
store.  (The first submission, with chat_history still empty, does match the
claim: its prompt history equals the store at the call.) -/
theorem claim_C1_prompt_duplication :
    (scriptRun svcA "English" { messages := [], chat_history := [] } "hi").calls
      = [{ system_text := systemInstruction "English", history := [userMsg "hi"] }] ∧
    (scriptRun svcA "English" { messages := [], chat_history := [] } "hi").state
      = { messages := [userMsg "hi", assistantMsg "A"]
          chat_history := [userMsg "hi", assistantMsg "A"] } ∧
    (scriptRun svcA "English"
      { messages := [userMsg "hi", assistantMsg "A"]
        chat_history := [userMsg "hi", assistantMsg "A"] } "yo").calls
      = [{ system_text := systemInstruction "English"
           history := [userMsg "hi", assistantMsg "A", userMsg "hi", assistantMsg "A",
             userMsg "yo"] }] ∧
    ([userMsg "hi", assistantMsg "A", userMsg "hi", assistantMsg "A", userMsg "yo"]
      : List Msg)
      ≠ storeAtCall
          { messages := [userMsg "hi", assistantMsg "A"]
            chat_history := [userMsg "hi", assistantMsg "A"] } "yo" :=
  ⟨rfl, rfl, rfl, by decide⟩
